import Mathlib

/-!
# obs-studio-server `main.cpp`: lifecycle and registration core

A shallow embedding of `src/obs-studio-server/source/main.cpp`:

* `ServerData`, `ServerConnectHandler`, `ServerDisconnectHandler` (lines 68-90),
* `System.Shutdown` (lines 92-101),
* `main` (lines 103-222): crash database bootstrap, argument check,
  registration, server start, the watchdog loop and the teardown.

Conventions of the embedding.

* `size_t` is the 64-bit unsigned type of the x64 build: a `Nat` reduced
  modulo `2 ^ 64` after every increment and decrement.
* A `std::chrono::high_resolution_clock::time_point` is its tick count, an
  `Int`; the clock's period is one nanosecond, so a millisecond is
  `1000000` ticks.  `duration_cast<milliseconds>` is integer division
  truncating toward zero (`Int.tdiv`).
* The handlers and the `System.Shutdown` callback run on threads of the IPC
  host.  A run is a list of events.  The handlers hold `sd.mtx` for their
  whole body, so each callback invocation is one event (carrying the clock
  value it reads).  The loop of `main` reads the shared data without taking
  `sd.mtx`, so there are two views of it: `Event.poll` runs one iteration of
  the loop as a single step (`step`, `run`, `watchdogLoop`), which is what
  the loop does whenever no callback runs in the middle of an iteration;
  `FineEvent` splits the iteration at its reads (`fineStep`, `fineRun`), so
  that callbacks can land between them.
* Calls into code outside this file (crashpad, `ipc::server`, the `osn` and
  `OBS_*` registration functions) are recorded as `Action`s in a log; their
  results, where `main` looks at them, are fields of `Env`.  Each such call
  is taken to return; only `myServer.initialize` may throw.
* Tick counts are not reduced modulo `2 ^ 64`: the clock does not wrap within
  the lifetime of a process.
-/

namespace ObsServer

/-! ## Data model -/

/-- Modulus of `size_t` (64-bit build). -/
def SIZE_MOD : Nat := 2 ^ 64

/-- Ticks of `high_resolution_clock` per millisecond (period: one nanosecond). -/
def TICKS_PER_MS : Int := 1000000

/-- The expression `duration_cast<milliseconds>(delta).count()`. -/
def duration_cast_ms (delta : Int) : Int := Int.tdiv delta TICKS_PER_MS

/-- The struct `ServerData` (lines 68-73), the mutex left out. -/
structure ServerData where
  last_connect : Int
  last_disconnect : Int
  count_connected : Nat
deriving DecidableEq, Repr

/-- The function `ServerConnectHandler` (lines 75-82); `now` is the clock value
read on line 79.  Returns the updated data and the accept decision. -/
def ServerConnectHandler (sd : ServerData) (now : Int) : ServerData × Bool :=
  ({ sd with last_connect := now,
             count_connected := (sd.count_connected + 1) % SIZE_MOD }, true)

/-- The function `ServerDisconnectHandler` (lines 84-90); `now` is the clock
value read on line 88.  The decrement is the unsigned one: `0 - 1` wraps. -/
def ServerDisconnectHandler (sd : ServerData) (now : Int) : ServerData :=
  { sd with last_disconnect := now,
            count_connected := (sd.count_connected + (SIZE_MOD - 1)) % SIZE_MOD }

/-- An `ipc::value`, as far as `main.cpp` builds one: the `uint64_t` case. -/
inductive value where
  | UInt64 (v : Nat)
deriving DecidableEq, Repr

/-- The function `System::Shutdown` (lines 94-100).  `data` is the flag the
context pointer points to, `rval` the result vector passed by reference, and
`ErrorCode_Ok` the numeric value of `ErrorCode::Ok` (declared in `error.hpp`).
Returns the new flag and the new result vector. -/
def System.Shutdown (ErrorCode_Ok : Nat) (data : Bool) (id : Int) (args : List value)
    (rval : List value) : Bool × List value :=
  let _ := data
  let _ := id
  let _ := args
  (true, rval ++ [value.UInt64 (ErrorCode_Ok % 2 ^ 64)])

/-! ## Runs: callbacks interleaved with loop iterations -/

/-- What happens to the process after the server was started. -/
inductive Event where
  /-- The IPC host calls the connect handler for `client`; the handler reads `now`. -/
  | connect (client : Nat) (now : Int)
  /-- The IPC host calls the disconnect handler for `client`; the handler reads `now`. -/
  | disconnect (client : Nat) (now : Int)
  /-- A client calls `System.Shutdown` with call id `id` and arguments `args`. -/
  | shutdown (id : Int) (args : List value)
  /-- The loop of `main` tests its condition and, when it holds, runs its body
  once, reading the clock value `now`. -/
  | poll (now : Int)
deriving DecidableEq, Repr

/-- The variables of `main` that the callbacks and the loop share. -/
structure ProcState where
  doShutdown : Bool
  sd : ServerData
deriving DecidableEq, Repr

/-- Lines 161-164: the state on entry, `t0` being the clock value of line 163. -/
def initialState (t0 : Int) : ProcState :=
  { doShutdown := false,
    sd := { last_connect := t0, last_disconnect := t0, count_connected := 0 } }

/-- The body of the loop of `main` (lines 203-211), the sleep left out. -/
def loopBody (s : ProcState) (now : Int) : ProcState :=
  if s.sd.count_connected = 0 then
    let tp := now
    let delta := tp - s.sd.last_disconnect
    if duration_cast_ms delta > 1000 then
      { s with doShutdown := true }
    else s
  else s

/-- The two states of the watchdog: inside the loop, or past it. -/
inductive WatchdogState where
  | RUNNING
  | TERMINATING
deriving DecidableEq, Repr

/-- One iteration of `while (!doShutdown) { ... }` (lines 201-213) started
with the watchdog inside the loop: the test of the condition; when it fails
the loop is left; otherwise the body runs, and the loop is left at the test
that follows exactly when the body has set the flag. -/
def loopIteration (s : ProcState) (now : Int) : WatchdogState × ProcState :=
  if s.doShutdown then (WatchdogState.TERMINATING, s)
  else
    let s1 := loopBody s now
    (if s1.doShutdown then WatchdogState.TERMINATING else WatchdogState.RUNNING, s1)

/-- The effect of one event on the shared variables. -/
def step (ErrorCode_Ok : Nat) (s : ProcState) : Event → ProcState
  | Event.connect _ now => { s with sd := (ServerConnectHandler s.sd now).1 }
  | Event.disconnect _ now => { s with sd := ServerDisconnectHandler s.sd now }
  | Event.shutdown id args =>
      { s with doShutdown := (System.Shutdown ErrorCode_Ok s.doShutdown id args []).1 }
  | Event.poll now => (loopIteration s now).2

/-- The effect of a list of events, in order. -/
def run (ErrorCode_Ok : Nat) (s : ProcState) (evs : List Event) : ProcState :=
  evs.foldl (step ErrorCode_Ok) s

/-! ## The loop of `main`, split at its reads -/

/-- Where the loop of `main` stands between two of its accesses to the data it
shares with the callbacks. -/
inductive LoopPc where
  /-- Before the test of line 201. -/
  | atTest
  /-- Past line 203, which found `count_connected == 0`; before line 205. -/
  | afterCount
  /-- Past line 205, which read the clock value `tp`; before line 206. -/
  | afterClock (tp : Int)
  /-- Past the loop. -/
  | exited
deriving DecidableEq, Repr

/-- Callback invocations and the single accesses of the loop of `main`. -/
inductive FineEvent where
  /-- The connect handler, under `sd.mtx`. -/
  | connect (client : Nat) (now : Int)
  /-- The disconnect handler, under `sd.mtx`. -/
  | disconnect (client : Nat) (now : Int)
  /-- A call of `System.Shutdown`. -/
  | shutdown (id : Int) (args : List value)
  /-- Lines 201-203: the loop reads `doShutdown`, then `count_connected`. -/
  | loopTest
  /-- Line 205: the loop reads the clock value `now`. -/
  | loopClock (now : Int)
  /-- Lines 206-209: the loop reads `last_disconnect`, compares, and sets the
  flag when more than 1000 whole milliseconds have passed; then it sleeps. -/
  | loopCompare
deriving DecidableEq, Repr

/-- The shared variables together with the position of the loop. -/
structure FineState where
  vars : ProcState
  pc : LoopPc
deriving DecidableEq, Repr

/-- The effect of one callback or one access of the loop.  An access for which
the loop is not in position has no effect. -/
def fineStep (ErrorCode_Ok : Nat) (f : FineState) : FineEvent → FineState
  | FineEvent.connect c now =>
      { f with vars := step ErrorCode_Ok f.vars (Event.connect c now) }
  | FineEvent.disconnect c now =>
      { f with vars := step ErrorCode_Ok f.vars (Event.disconnect c now) }
  | FineEvent.shutdown id args =>
      { f with vars := step ErrorCode_Ok f.vars (Event.shutdown id args) }
  | FineEvent.loopTest =>
      match f.pc with
      | LoopPc.atTest =>
          if f.vars.doShutdown then { f with pc := LoopPc.exited }
          else if f.vars.sd.count_connected = 0 then { f with pc := LoopPc.afterCount }
          else f
      | _ => f
  | FineEvent.loopClock now =>
      match f.pc with
      | LoopPc.afterCount => { f with pc := LoopPc.afterClock now }
      | _ => f
  | FineEvent.loopCompare =>
      match f.pc with
      | LoopPc.afterClock tp =>
          let delta := tp - f.vars.sd.last_disconnect
          if duration_cast_ms delta > 1000 then
            { vars := { f.vars with doShutdown := true }, pc := LoopPc.atTest }
          else { f with pc := LoopPc.atTest }
      | _ => f

/-- The effect of a list of callbacks and loop accesses, in order. -/
def fineRun (ErrorCode_Ok : Nat) (f : FineState) (evs : List FineEvent) : FineState :=
  evs.foldl (fineStep ErrorCode_Ok) f

/-- The callback behind a fine event, if it is one. -/
def FineEvent.toEvent : FineEvent → Option Event
  | FineEvent.connect c now => some (Event.connect c now)
  | FineEvent.disconnect c now => some (Event.disconnect c now)
  | FineEvent.shutdown id args => some (Event.shutdown id args)
  | _ => none

/-! ## The entry point -/

/-- Calls that `main` makes into code outside `main.cpp`, and the points of
its own control flow that the statements below refer to. -/
inductive Action where
  /-- Line 135, `crashpad::CrashReportDatabase::Initialize(db)`. -/
  | CrashReportDatabase_Initialize
  /-- Line 139. -/
  | SetUploadsEnabled
  /-- Line 141. -/
  | StartHandler
  /-- Line 148. -/
  | WaitForHandlerStart
  /-- A line written to `std::cerr`. -/
  | cerr (msg : String)
  /-- Line 166, `osn::Source::Initialize()`. -/
  | Source_Initialize
  /-- Line 171, `myServer.register_collection(cls)`: the collection's name and
  the names of its functions. -/
  | register_collection (name : String) (functions : List String)
  /-- Lines 174-186, `X::Register(myServer)` for the functional area `X`. -/
  | Register (area : String)
  /-- Line 188. -/
  | set_connect_handler
  /-- Line 189. -/
  | set_disconnect_handler
  /-- Line 193, `myServer.initialize(argv[1])`. -/
  | myServer_initialize (endpoint : String)
  /-- Line 201, one evaluation of the loop condition. -/
  | loop_test
  /-- Line 212. -/
  | sleep_for (ms : Nat)
  /-- Line 216, `osn::Source::Finalize()`. -/
  | Source_Finalize
  /-- Line 219, `myServer.finalize()`. -/
  | myServer_finalize
deriving DecidableEq, Repr

/-- What `CrashReportDatabase::Initialize` hands back, as far as line 136
looks at it. -/
inductive DbResult where
  /-- The returned pointer is `nullptr`. -/
  | null
  /-- A database whose `GetSettings()` is `NULL`. -/
  | settings_null
  /-- A database with settings. -/
  | ok
deriving DecidableEq, Repr

/-- Everything outside `main.cpp` that a run of `main` depends on. -/
structure Env where
  /-- The argument vector; `argc` is its length. -/
  argv : List String
  /-- The result of line 135. -/
  database : DbResult
  /-- The clock value read on line 163. -/
  t0 : Int
  /-- Whether `myServer.initialize` throws. -/
  initialize_throws : Bool
  /-- What happens once the server is started. -/
  events : List Event
deriving Repr

/-- The conversion of a C++ `bool` to `int` (`return false;` in `int main`). -/
def bool_to_int (b : Bool) : Int := if b then 1 else 0

/-- The loop of `main` (lines 201-213) over the events that follow the start
of the server: callbacks update the shared variables; at each `poll` the
condition is tested and either the loop is left (`some`) or its body runs.
`none`: the events ran out with the loop still running. -/
def watchdogLoop (ErrorCode_Ok : Nat) (s : ProcState) :
    List Event → Option ProcState × List Action
  | [] => (none, [])
  | Event.poll now :: rest =>
      if s.doShutdown then (some s, [Action.loop_test])
      else
        let r := watchdogLoop ErrorCode_Ok (loopBody s now) rest
        (r.1, Action.loop_test :: Action.sleep_for 10 :: r.2)
  | Event.connect c now :: rest =>
      watchdogLoop ErrorCode_Ok (step ErrorCode_Ok s (Event.connect c now)) rest
  | Event.disconnect c now :: rest =>
      watchdogLoop ErrorCode_Ok (step ErrorCode_Ok s (Event.disconnect c now)) rest
  | Event.shutdown id args :: rest =>
      watchdogLoop ErrorCode_Ok (step ErrorCode_Ok s (Event.shutdown id args)) rest

/-- Lines 134-148: the crash database and the crash handler. -/
def bootActions : List Action :=
  [ Action.CrashReportDatabase_Initialize,
    Action.SetUploadsEnabled,
    Action.StartHandler,
    Action.WaitForHandlerStart ]

/-- Lines 166-189: engine start, the `System` collection, the thirteen
`Register` calls and the two handlers, in source order. -/
def registrationActions : List Action :=
  [ Action.Source_Initialize,
    Action.register_collection "System" ["Shutdown"],
    Action.Register "osn::Global",
    Action.Register "osn::Source",
    Action.Register "osn::Input",
    Action.Register "osn::Filter",
    Action.Register "osn::Transition",
    Action.Register "osn::Scene",
    Action.Register "osn::SceneItem",
    Action.Register "osn::Fader",
    Action.Register "osn::VolMeter",
    Action.Register "OBS_API",
    Action.Register "OBS_content",
    Action.Register "OBS_service",
    Action.Register "OBS_settings",
    Action.set_connect_handler,
    Action.set_disconnect_handler ]

/-- The function `main` (lines 103-222).  The exit code is `none` when the
events run out with the loop still running; the log lists the actions in the
order `main` performs them. -/
def main (ErrorCode_Ok : Nat) (env : Env) : Option Int × List Action :=
  let argc : Int := env.argv.length
  let log0 := [Action.CrashReportDatabase_Initialize]
  if env.database = DbResult.null ∨ env.database = DbResult.settings_null then
    (some (bool_to_int false), log0)
  else
    let log1 := log0 ++
      [Action.SetUploadsEnabled, Action.StartHandler, Action.WaitForHandlerStart]
    if argc ≠ 2 then
      (some (-1), log1 ++ [Action.cerr "There must be exactly one parameter."])
    else
      let s0 := initialState env.t0
      let log2 := log1 ++ registrationActions ++
        [Action.myServer_initialize (env.argv.getD 1 "")]
      if env.initialize_throws then
        (some (-2), log2 ++ [Action.cerr "Failed to initialize server"])
      else
        match watchdogLoop ErrorCode_Ok s0 env.events with
        | (none, l) => (none, log2 ++ l)
        | (some _, l) =>
            (some 0, log2 ++ l ++ [Action.Source_Finalize, Action.myServer_finalize])

/-! ## Vocabulary of the statements -/

/-- Number of connect events in a list. -/
def connects : List Event → Nat
  | [] => 0
  | Event.connect _ _ :: es => connects es + 1
  | _ :: es => connects es

/-- Number of disconnect events in a list. -/
def disconnects : List Event → Nat
  | [] => 0
  | Event.disconnect _ _ :: es => disconnects es + 1
  | _ :: es => disconnects es

/-- The clients connected after a list of events, given those connected
before it (a client connected twice is listed twice). -/
def clientsAfter (cs : List Nat) : List Event → List Nat
  | [] => cs
  | Event.connect c _ :: es => clientsAfter (c :: cs) es
  | Event.disconnect c _ :: es => clientsAfter (cs.erase c) es
  | _ :: es => clientsAfter cs es

/-- Every disconnect is for a client that is connected at that moment: it is
preceded by a connect of its own that no earlier disconnect has used up. -/
def pairedFrom (cs : List Nat) : List Event → Prop
  | [] => True
  | Event.connect c _ :: es => pairedFrom (c :: cs) es
  | Event.disconnect c _ :: es => c ∈ cs ∧ pairedFrom (cs.erase c) es
  | _ :: es => pairedFrom cs es

/-- The event is a `System.Shutdown` call. -/
def Event.isShutdown : Event → Bool
  | Event.shutdown _ _ => true
  | _ => false

/-- The action registers a collection with the server. -/
def Action.isRegistration : Action → Bool
  | Action.register_collection _ _ => true
  | Action.Register _ => true
  | _ => false

/-- The action is the call `myServer.initialize`. -/
def Action.isServerStart : Action → Bool
  | Action.myServer_initialize _ => true
  | _ => false

/-- The events `a` end at a moment at which `count_connected` reaches zero, at
time `z`: either nothing has happened yet and `z` is the start time, or the
last event of `a` is a disconnect reading the clock value `z`, before which
the count was not zero. -/
def zeroCrossing (ErrorCode_Ok : Nat) (t0 : Int) (a : List Event) (z : Int) : Prop :=
  (a = [] ∧ z = t0) ∨
    ∃ a1 c, a = a1 ++ [Event.disconnect c z] ∧
      (run ErrorCode_Ok (initialState t0) a1).sd.count_connected ≠ 0

/-- A start with one argument too few and a crash database that fails to
open. -/
def envNoArgsNoDatabase : Env :=
  { argv := ["obs64.exe"], database := DbResult.null, t0 := 0,
    initialize_throws := false, events := [] }

/-- A start with a valid endpoint argument and a crash database that fails to
open. -/
def envNoDatabase : Env :=
  { argv := ["obs64.exe", "slobs-pipe"], database := DbResult.null, t0 := 0,
    initialize_throws := false, events := [] }

/-- A start with no endpoint argument. -/
def envNoArgs : Env :=
  { argv := ["obs64.exe"], database := DbResult.ok, t0 := 0,
    initialize_throws := false, events := [] }

/-- A start on an endpoint on which the server cannot be started. -/
def envBadEndpoint : Env :=
  { argv := ["obs64.exe", "slobs-pipe"], database := DbResult.ok, t0 := 0,
    initialize_throws := true, events := [Event.connect 1 5, Event.poll 7] }

/-- A full session: one client connects at 5 ms and leaves at 50 ms; the loop
iterates at 60 ms, at 1060 ms and once more. -/
def envSession : Env :=
  { argv := ["obs64.exe", "slobs-pipe"], database := DbResult.ok, t0 := 0,
    initialize_throws := false,
    events := [Event.connect 1 5000000, Event.disconnect 1 50000000, Event.poll 60000000,
      Event.poll 1060000000, Event.poll 1070000000] }

/-- The log of `n` iterations of the loop that each run the body. -/
def iterationsLog : Nat → List Action
  | 0 => []
  | n + 1 => Action.loop_test :: Action.sleep_for 10 :: iterationsLog n

/-- A client connects at 999.5 ms, after the loop has read `count_connected`
(as 0, no client having connected since the start at 0) and before it reads
the clock at 1001 ms. -/
def raceTrace : List FineEvent :=
  [FineEvent.loopTest, FineEvent.connect 1 999500000, FineEvent.loopClock 1001000000,
    FineEvent.loopCompare]

/-! ## Auxiliary lemmas -/

theorem duration_cast_ms_gt_iff (delta : Int) :
    duration_cast_ms delta > 1000 ↔ 1001 * TICKS_PER_MS ≤ delta := by
  unfold duration_cast_ms TICKS_PER_MS
  rcases le_or_lt 0 delta with h | h
  · rw [Int.tdiv_eq_ediv h (by decide)]
    omega
  · have h0 : 0 ≤ Int.tdiv (-delta) 1000000 := Int.tdiv_nonneg (by omega) (by decide)
    have h1 : Int.tdiv (-delta) 1000000 = -(Int.tdiv delta 1000000) := Int.neg_tdiv _ _
    omega

theorem loopBody_sd (s : ProcState) (now : Int) : (loopBody s now).sd = s.sd := by
  unfold loopBody
  by_cases h1 : s.sd.count_connected = 0
  · by_cases h2 : duration_cast_ms (now - s.sd.last_disconnect) > 1000 <;> simp [h1, h2]
  · simp [h1]

theorem loopBody_doShutdown (s : ProcState) (now : Int) :
    (loopBody s now).doShutdown = true ↔
      s.doShutdown = true ∨
        (s.sd.count_connected = 0 ∧ duration_cast_ms (now - s.sd.last_disconnect) > 1000) := by
  unfold loopBody
  by_cases h1 : s.sd.count_connected = 0
  · by_cases h2 : duration_cast_ms (now - s.sd.last_disconnect) > 1000
    · simp [h1, h2]
    · have h3 : ¬ (1000 < duration_cast_ms (now - s.sd.last_disconnect)) := h2
      simp [h1, h3]
  · simp [h1]

theorem loopIteration_sd (s : ProcState) (now : Int) :
    (loopIteration s now).2.sd = s.sd := by
  unfold loopIteration
  split_ifs
  · rfl
  · exact loopBody_sd s now

theorem loopIteration_state (s : ProcState) (now : Int) :
    (loopIteration s now).1 = WatchdogState.TERMINATING ↔
      (loopIteration s now).2.doShutdown = true := by
  unfold loopIteration
  by_cases h : s.doShutdown = true
  · simp [h]
  · by_cases h2 : (loopBody s now).doShutdown = true <;> simp [h, h2]

theorem loopIteration_doShutdown (s : ProcState) (now : Int) :
    (loopIteration s now).2.doShutdown = true ↔
      s.doShutdown = true ∨
        (s.sd.count_connected = 0 ∧ duration_cast_ms (now - s.sd.last_disconnect) > 1000) := by
  by_cases h : s.doShutdown = true
  · simp [loopIteration, h]
  · have := loopBody_doShutdown s now
    simp only [loopIteration, h]
    simpa [h] using this

theorem run_append (ErrorCode_Ok : Nat) (s : ProcState) (p q : List Event) :
    run ErrorCode_Ok s (p ++ q) = run ErrorCode_Ok (run ErrorCode_Ok s p) q := by
  simp [run, List.foldl_append]

theorem run_cons (ErrorCode_Ok : Nat) (s : ProcState) (e : Event) (es : List Event) :
    run ErrorCode_Ok s (e :: es) = run ErrorCode_Ok (step ErrorCode_Ok s e) es := rfl

theorem connects_append (p q : List Event) : connects (p ++ q) = connects p + connects q := by
  induction p with
  | nil => simp [connects]
  | cons e es ih =>
    cases e <;> simp [connects, ih]
    omega

theorem connects_take_le (n : Nat) (evs : List Event) : connects (evs.take n) ≤ connects evs := by
  have h := connects_append (evs.take n) (evs.drop n)
  rw [List.take_append_drop] at h
  omega

theorem connects_le_length (evs : List Event) : connects evs ≤ evs.length := by
  induction evs with
  | nil => simp [connects]
  | cons e es ih => cases e <;> simp [connects] <;> omega

/-- The counter after a run, as long as it neither wraps below zero nor above
`SIZE_MOD - 1`. -/
theorem run_count_connected (ErrorCode_Ok : Nat) : ∀ (evs : List Event) (s : ProcState),
    (∀ n, disconnects (evs.take n) ≤ s.sd.count_connected + connects (evs.take n)) →
    s.sd.count_connected + connects evs < SIZE_MOD →
    (run ErrorCode_Ok s evs).sd.count_connected + disconnects evs =
      s.sd.count_connected + connects evs := by
  intro evs
  induction evs with
  | nil => intro s _ _; simp [run, connects, disconnects]
  | cons e es ih =>
    intro s hbal hmax
    rw [run_cons]
    cases e with
    | connect c now =>
      have hc : (step ErrorCode_Ok s (Event.connect c now)).sd.count_connected =
          s.sd.count_connected + 1 := by
        simp only [step, ServerConnectHandler]
        apply Nat.mod_eq_of_lt
        simp only [connects] at hmax
        omega
      have h := ih (step ErrorCode_Ok s (Event.connect c now))
        (fun n => by
          have := hbal (n + 1)
          simp only [List.take_succ_cons, disconnects, connects] at this
          rw [hc]; omega)
        (by rw [hc]; simp only [connects] at hmax; omega)
      rw [hc] at h
      simp only [connects, disconnects]
      omega
    | disconnect c now =>
      have h1 : 1 ≤ s.sd.count_connected := by
        have := hbal 1
        simpa [disconnects, connects] using this
      have hlt : s.sd.count_connected < SIZE_MOD := by omega
      have hc : (step ErrorCode_Ok s (Event.disconnect c now)).sd.count_connected =
          s.sd.count_connected - 1 := by
        simp only [step, ServerDisconnectHandler]
        have : s.sd.count_connected + (SIZE_MOD - 1) =
            (s.sd.count_connected - 1) + SIZE_MOD := by omega
        rw [this, Nat.add_mod_right]
        apply Nat.mod_eq_of_lt
        omega
      have h := ih (step ErrorCode_Ok s (Event.disconnect c now))
        (fun n => by
          have := hbal (n + 1)
          simp only [List.take_succ_cons, disconnects, connects] at this
          rw [hc]; omega)
        (by rw [hc]; simp only [connects] at hmax; omega)
      rw [hc] at h
      simp only [connects, disconnects]
      omega
    | shutdown id args =>
      have h := ih (step ErrorCode_Ok s (Event.shutdown id args))
        (fun n => by
          have := hbal (n + 1)
          simpa [List.take_succ_cons, disconnects, connects, step] using this)
        (by simpa [connects, step] using hmax)
      simpa [connects, disconnects, step] using h
    | poll now =>
      have hsd : (step ErrorCode_Ok s (Event.poll now)).sd = s.sd := loopIteration_sd s now
      have h := ih (step ErrorCode_Ok s (Event.poll now))
        (fun n => by
          have := hbal (n + 1)
          simp only [List.take_succ_cons, disconnects, connects] at this
          rw [hsd]; exact this)
        (by rw [hsd]; simpa [connects] using hmax)
      rw [hsd] at h
      simpa [connects, disconnects] using h

theorem clientsAfter_append (p q : List Event) : ∀ cs : List Nat,
    clientsAfter cs (p ++ q) = clientsAfter (clientsAfter cs p) q := by
  induction p with
  | nil => intro cs; rfl
  | cons e es ih => intro cs; cases e <;> simp [clientsAfter, ih]

theorem clientsAfter_length_le : ∀ (evs : List Event) (cs : List Nat),
    (clientsAfter cs evs).length ≤ cs.length + evs.length := by
  intro evs
  induction evs with
  | nil => intro cs; simp [clientsAfter]
  | cons e es ih =>
    intro cs
    cases e with
    | connect c now =>
      have := ih (c :: cs)
      simp only [clientsAfter, List.length_cons] at this ⊢
      omega
    | disconnect c now =>
      have := ih (cs.erase c)
      have hle : (cs.erase c).length ≤ cs.length := List.length_erase_le c cs
      simp only [clientsAfter, List.length_cons] at this ⊢
      omega
    | shutdown id args =>
      have := ih cs
      simp only [clientsAfter, List.length_cons] at this ⊢
      omega
    | poll now =>
      have := ih cs
      simp only [clientsAfter, List.length_cons] at this ⊢
      omega

theorem pairedFrom_append (p q : List Event) : ∀ cs : List Nat,
    pairedFrom cs (p ++ q) ↔ pairedFrom cs p ∧ pairedFrom (clientsAfter cs p) q := by
  induction p with
  | nil => intro cs; simp [pairedFrom, clientsAfter]
  | cons e es ih =>
    intro cs
    cases e <;> simp [pairedFrom, clientsAfter, ih, and_assoc]

/-- With every disconnect paired and no wrap-around, `count_connected` is the
number of connected clients. -/
theorem run_count_eq_clients (ErrorCode_Ok : Nat) : ∀ (evs : List Event) (s : ProcState)
    (cs : List Nat), pairedFrom cs evs → s.sd.count_connected = cs.length →
    cs.length + evs.length < SIZE_MOD →
    (run ErrorCode_Ok s evs).sd.count_connected = (clientsAfter cs evs).length := by
  intro evs
  induction evs with
  | nil => intro s cs _ h _; simpa [run, clientsAfter] using h
  | cons e es ih =>
    intro s cs hp hc hlen
    rw [run_cons]
    simp only [List.length_cons] at hlen
    cases e with
    | connect c now =>
      simp only [pairedFrom] at hp
      simp only [clientsAfter]
      apply ih _ _ hp
      · simp only [step, ServerConnectHandler, List.length_cons]
        rw [hc]
        apply Nat.mod_eq_of_lt
        omega
      · simp only [List.length_cons]; omega
    | disconnect c now =>
      simp only [pairedFrom] at hp
      simp only [clientsAfter]
      have hpos : 0 < cs.length := List.length_pos_of_mem hp.1
      apply ih _ _ hp.2
      · simp only [step, ServerDisconnectHandler]
        rw [hc, List.length_erase_of_mem hp.1]
        have : cs.length + (SIZE_MOD - 1) = (cs.length - 1) + SIZE_MOD := by omega
        rw [this, Nat.add_mod_right]
        apply Nat.mod_eq_of_lt
        omega
      · rw [List.length_erase_of_mem hp.1]; omega
    | shutdown id args =>
      simp only [pairedFrom] at hp
      simp only [clientsAfter]
      exact ih _ _ hp (by simpa [step] using hc) (by omega)
    | poll now =>
      simp only [pairedFrom] at hp
      simp only [clientsAfter]
      refine ih _ _ hp ?_ (by omega)
      have hsd : (step ErrorCode_Ok s (Event.poll now)).sd = s.sd := loopIteration_sd s now
      rw [hsd]; exact hc

/-- Whenever the counter is zero after a paired run, the run splits at a
zero crossing whose time is the current `last_disconnect`, and the counter
has been zero ever since. -/
theorem exists_zeroCrossing (ErrorCode_Ok : Nat) (t0 : Int) : ∀ pre : List Event,
    pairedFrom [] pre → pre.length < SIZE_MOD →
    (run ErrorCode_Ok (initialState t0) pre).sd.count_connected = 0 →
    ∃ a b, pre = a ++ b ∧
      zeroCrossing ErrorCode_Ok t0 a
        (run ErrorCode_Ok (initialState t0) pre).sd.last_disconnect ∧
      ∀ n, (run ErrorCode_Ok (initialState t0) (a ++ b.take n)).sd.count_connected = 0 := by
  intro pre
  induction pre using List.reverseRecOn with
  | nil =>
    intro _ _ _
    exact ⟨[], [], rfl, Or.inl ⟨rfl, rfl⟩, fun n => by simp [run, initialState]⟩
  | append_singleton p e ih =>
    intro hp hlen hz
    rw [pairedFrom_append] at hp
    simp only [List.length_append, List.length_singleton] at hlen
    have hcount := run_count_eq_clients ErrorCode_Ok p (initialState t0) [] hp.1 rfl
      (by simp only [List.length_nil]; omega)
    rw [run_append] at hz
    cases e with
    | connect c now =>
      exfalso
      have hlt : (clientsAfter [] p).length ≤ p.length := by
        have := clientsAfter_length_le p []
        simpa using this
      simp only [run, List.foldl_cons, List.foldl_nil, step, ServerConnectHandler] at hz
      have hrun : (List.foldl (step ErrorCode_Ok) (initialState t0) p) =
          run ErrorCode_Ok (initialState t0) p := rfl
      rw [hrun, hcount, Nat.mod_eq_of_lt (by omega)] at hz
      omega
    | disconnect c now =>
      refine ⟨p ++ [Event.disconnect c now], [], by simp, Or.inr ⟨p, c, ?_, ?_⟩, ?_⟩
      · rw [run_append]
        simp [run, step, ServerDisconnectHandler]
      · rw [hcount]
        have hmem : c ∈ clientsAfter [] p := by
          have := hp.2
          simp only [pairedFrom] at this
          exact this.1
        exact Nat.pos_iff_ne_zero.mp (List.length_pos_of_mem hmem)
      · intro n
        simp only [List.take_nil, List.append_nil]
        rw [run_append]
        exact hz
    | shutdown id args =>
      have hsd : (run ErrorCode_Ok (run ErrorCode_Ok (initialState t0) p)
          [Event.shutdown id args]).sd = (run ErrorCode_Ok (initialState t0) p).sd := rfl
      rw [hsd] at hz
      obtain ⟨a, b, hab, hzc, hall⟩ := ih hp.1 (by omega) hz
      refine ⟨a, b ++ [Event.shutdown id args], by rw [hab, List.append_assoc], ?_, ?_⟩
      · rw [run_append, hsd]; exact hzc
      · intro n
        rcases Nat.lt_or_ge b.length n with hn | hn
        · rw [List.take_of_length_le (by simp; omega), ← List.append_assoc, ← hab,
            run_append, hsd]
          exact hz
        · rw [List.take_append_of_le_length hn]
          exact hall n
    | poll now =>
      have hsd : (run ErrorCode_Ok (run ErrorCode_Ok (initialState t0) p)
          [Event.poll now]).sd = (run ErrorCode_Ok (initialState t0) p).sd :=
        loopIteration_sd _ now
      rw [hsd] at hz
      obtain ⟨a, b, hab, hzc, hall⟩ := ih hp.1 (by omega) hz
      refine ⟨a, b ++ [Event.poll now], by rw [hab, List.append_assoc], ?_, ?_⟩
      · rw [run_append, hsd]; exact hzc
      · intro n
        rcases Nat.lt_or_ge b.length n with hn | hn
        · rw [List.take_of_length_le (by simp; omega), ← List.append_assoc, ← hab,
            run_append, hsd]
          exact hz
        · rw [List.take_append_of_le_length hn]
          exact hall n

theorem watchdogLoop_log (ErrorCode_Ok : Nat) : ∀ (evs : List Event) (s : ProcState),
    ∀ a ∈ (watchdogLoop ErrorCode_Ok s evs).2,
      a = Action.loop_test ∨ a = Action.sleep_for 10 := by
  intro evs
  induction evs with
  | nil => intro s a ha; simp [watchdogLoop] at ha
  | cons e es ih =>
    intro s a ha
    cases e with
    | connect c now => exact ih _ a (by simpa [watchdogLoop] using ha)
    | disconnect c now => exact ih _ a (by simpa [watchdogLoop] using ha)
    | shutdown id args => exact ih _ a (by simpa [watchdogLoop] using ha)
    | poll now =>
      by_cases hs : s.doShutdown = true
      · simp [watchdogLoop, hs] at ha
        exact Or.inl ha
      · simp only [watchdogLoop, hs, Bool.false_eq_true, if_false, List.mem_cons] at ha
        rcases ha with h | h | h
        · exact Or.inl h
        · exact Or.inr h
        · exact ih _ a h

/-- The loop of `main` and `run` agree: when the loop is left, it is left at
a `poll`, with the flag set, in the state that `run` computes for the events
before that `poll`. -/
theorem watchdogLoop_eq_run (ErrorCode_Ok : Nat) : ∀ (evs : List Event) (s s1 : ProcState),
    (watchdogLoop ErrorCode_Ok s evs).1 = some s1 →
    ∃ pre now post, evs = pre ++ Event.poll now :: post ∧
      run ErrorCode_Ok s pre = s1 ∧ s1.doShutdown = true := by
  intro evs
  induction evs with
  | nil => intro s s1 h; simp [watchdogLoop] at h
  | cons e es ih =>
    intro s s1 h
    cases e with
    | connect c t =>
      obtain ⟨pre, now, post, h1, h2, h3⟩ := ih _ s1 (by simpa [watchdogLoop] using h)
      exact ⟨Event.connect c t :: pre, now, post, by rw [h1]; rfl, h2, h3⟩
    | disconnect c t =>
      obtain ⟨pre, now, post, h1, h2, h3⟩ := ih _ s1 (by simpa [watchdogLoop] using h)
      exact ⟨Event.disconnect c t :: pre, now, post, by rw [h1]; rfl, h2, h3⟩
    | shutdown id args =>
      obtain ⟨pre, now, post, h1, h2, h3⟩ := ih _ s1 (by simpa [watchdogLoop] using h)
      exact ⟨Event.shutdown id args :: pre, now, post, by rw [h1]; rfl, h2, h3⟩
    | poll t =>
      by_cases hs : s.doShutdown = true
      · simp only [watchdogLoop, hs, if_true, Option.some.injEq] at h
        exact ⟨[], t, es, rfl, h, by rw [← h]; exact hs⟩
      · simp only [watchdogLoop, hs, Bool.false_eq_true, if_false] at h
        obtain ⟨pre, now, post, h1, h2, h3⟩ := ih _ s1 h
        refine ⟨Event.poll t :: pre, now, post, by rw [h1]; rfl, ?_, h3⟩
        rw [run_cons]
        have : step ErrorCode_Ok s (Event.poll t) = loopBody s t := by
          simp [step, loopIteration, hs]
        rw [this]; exact h2

/-- Polls from the initial state whose truncated elapsed time is at most 1000
each run the body without effect; the loop goes on with what follows. -/
theorem watchdogLoop_early_polls (ErrorCode_Ok : Nat) (t0 : Int) (rest : List Event) :
    ∀ polls : List Int, (∀ p ∈ polls, duration_cast_ms (p - t0) ≤ 1000) →
    watchdogLoop ErrorCode_Ok (initialState t0) (polls.map Event.poll ++ rest) =
      ((watchdogLoop ErrorCode_Ok (initialState t0) rest).1,
        iterationsLog polls.length ++
          (watchdogLoop ErrorCode_Ok (initialState t0) rest).2) := by
  intro polls
  induction polls with
  | nil => intro _; simp [iterationsLog]
  | cons p ps ih =>
    intro h
    have hp : ¬ (1000 < duration_cast_ms (p - t0)) :=
      not_lt.mpr (h p (List.mem_cons_self _ _))
    have hbody : loopBody (initialState t0) p = initialState t0 := by
      simp [loopBody, initialState, hp]
    have hflag : (initialState t0).doShutdown = false := rfl
    have ih2 := ih (fun q hq => h q (List.mem_cons_of_mem _ hq))
    have happ : (List.map Event.poll ps).append rest = List.map Event.poll ps ++ rest := rfl
    simp only [List.map_cons, List.cons_append, watchdogLoop, hflag, Bool.false_eq_true,
      if_false, hbody, happ, ih2, List.length_cons, iterationsLog, List.cons_append]

/-- The loop from the initial state over a poll whose truncated elapsed time
exceeds 1000, followed by one more test. -/
theorem watchdogLoop_late_poll (ErrorCode_Ok : Nat) (t0 now next : Int) (rest : List Event)
    (hnow : duration_cast_ms (now - t0) > 1000) :
    watchdogLoop ErrorCode_Ok (initialState t0)
        (Event.poll now :: Event.poll next :: rest) =
      (some { initialState t0 with doShutdown := true },
        [Action.loop_test, Action.sleep_for 10, Action.loop_test]) := by
  have hnow2 : 1000 < duration_cast_ms (now - t0) := hnow
  simp [watchdogLoop, loopBody, initialState, hnow2]

/-- The loop from the initial state over a poll whose truncated elapsed time
exceeds 1000, with nothing after it: the body has run, the test that leaves
the loop has not. -/
theorem watchdogLoop_late_poll_last (ErrorCode_Ok : Nat) (t0 now : Int) :
    watchdogLoop ErrorCode_Ok (initialState t0) [Event.poll now] =
      (none, [Action.loop_test, Action.sleep_for 10]) := by
  simp [watchdogLoop, initialState]

/-- A list holds at most one way of being split at a call of
`myServer.initialize` when that call occurs only once. -/
theorem split_at_server_start : ∀ (L T pre post : List Action) (x y : Action),
    (∀ a ∈ L, a.isServerStart = false) → (∀ a ∈ T, a.isServerStart = false) →
    x.isServerStart = true → y.isServerStart = true →
    L ++ x :: T = pre ++ y :: post → pre = L ∧ y = x ∧ post = T := by
  intro L
  induction L with
  | nil =>
    intro T pre post x y _ hT _ hy h
    cases pre with
    | nil =>
      simp only [List.nil_append, List.cons.injEq] at h
      exact ⟨rfl, h.1.symm, h.2.symm⟩
    | cons p ps =>
      simp only [List.nil_append, List.cons_append, List.cons.injEq] at h
      have hmem : y ∈ T := by rw [h.2]; simp
      have := hT y hmem
      rw [hy] at this
      exact absurd this (by decide)
  | cons l ls ih =>
    intro T pre post x y hL hT hx hy h
    cases pre with
    | nil =>
      simp only [List.nil_append, List.cons_append, List.cons.injEq] at h
      have := hL l (List.mem_cons_self _ _)
      rw [h.1, hy] at this
      exact absurd this (by decide)
    | cons p ps =>
      simp only [List.cons_append, List.cons.injEq] at h
      obtain ⟨h1, h2, h3⟩ := ih T ps post x y
        (fun a ha => hL a (List.mem_cons_of_mem _ ha)) hT hx hy h.2
      exact ⟨by rw [h.1, h1], h2, h3⟩

/-- The shapes of the log of `main`. -/
theorem main_log_cases (ErrorCode_Ok : Nat) (env : Env) :
    ((main ErrorCode_Ok env).1 = some 0 ∧
      (main ErrorCode_Ok env).2 = [Action.CrashReportDatabase_Initialize] ∧
      env.database ≠ DbResult.ok) ∨
    ((main ErrorCode_Ok env).1 = some (-1) ∧
      (main ErrorCode_Ok env).2 = bootActions ++
        [Action.cerr "There must be exactly one parameter."] ∧
      env.database = DbResult.ok ∧ (env.argv.length : Int) ≠ 2) ∨
    (env.database = DbResult.ok ∧ (env.argv.length : Int) = 2 ∧
      ((env.initialize_throws = true ∧ (main ErrorCode_Ok env).1 = some (-2) ∧
        (main ErrorCode_Ok env).2 = (bootActions ++ registrationActions) ++
          Action.myServer_initialize (env.argv.getD 1 "") ::
            [Action.cerr "Failed to initialize server"]) ∨
       (env.initialize_throws = false ∧
        (main ErrorCode_Ok env).1 =
          (watchdogLoop ErrorCode_Ok (initialState env.t0) env.events).1.map (fun _ => 0) ∧
        (main ErrorCode_Ok env).2 = (bootActions ++ registrationActions) ++
          Action.myServer_initialize (env.argv.getD 1 "") ::
            ((watchdogLoop ErrorCode_Ok (initialState env.t0) env.events).2 ++
              (if (watchdogLoop ErrorCode_Ok (initialState env.t0) env.events).1.isSome
               then [Action.Source_Finalize, Action.myServer_finalize] else []))))) := by
  unfold main
  cases hdb : env.database with
  | null => left; simp [bool_to_int]
  | settings_null => left; simp [bool_to_int]
  | ok =>
    right
    by_cases hargc : (env.argv.length : Int) = 2
    · right
      refine ⟨rfl, hargc, ?_⟩
      cases hthrow : env.initialize_throws with
      | true => left; simp [hargc, bootActions]
      | false =>
        right
        rcases hloop : watchdogLoop ErrorCode_Ok (initialState env.t0) env.events with ⟨r, l⟩
        cases r with
        | none => simp [hargc, bootActions, hloop]
        | some s1 => simp [hargc, bootActions, hloop]
    · left
      simp [hargc, bootActions]

/-- Apart from the crash database path, exit code 0 means a normal shutdown:
the loop was left, the engine released and the server closed. -/
theorem main_exit_zero_of_database_ok (ErrorCode_Ok : Nat) (env : Env)
    (hdb : env.database = DbResult.ok) (hret : (main ErrorCode_Ok env).1 = some 0) :
    (watchdogLoop ErrorCode_Ok (initialState env.t0) env.events).1.isSome = true ∧
    Action.Source_Finalize ∈ (main ErrorCode_Ok env).2 ∧
    Action.myServer_finalize ∈ (main ErrorCode_Ok env).2 := by
  rcases main_log_cases ErrorCode_Ok env with ⟨_, _, h⟩ | ⟨h, _, _, _⟩ |
    ⟨_, _, ⟨_, h, _⟩ | ⟨_, h, hlog⟩⟩
  · exact absurd hdb h
  · rw [h] at hret; exact absurd hret (by decide)
  · rw [h] at hret; exact absurd hret (by decide)
  · rw [h] at hret
    have hsome : (watchdogLoop ErrorCode_Ok (initialState env.t0) env.events).1.isSome
        = true := by
      cases hw : (watchdogLoop ErrorCode_Ok (initialState env.t0) env.events).1 with
      | none => rw [hw] at hret; simp at hret
      | some _ => rfl
    refine ⟨hsome, ?_, ?_⟩ <;> rw [hlog, hsome] <;> simp

/-! ## The connection counter (C1) -/

/-- Outside the contract of the IPC host (a disconnect for a client that never
connected): a single disconnect applied to a counter of 0 leaves
`count_connected` at `2 ^ 64 - 1`. -/
theorem disconnect_at_zero_wraps :
    (run 0 (initialState 0) [Event.disconnect 1 5]).sd.count_connected
      = 18446744073709551615 ∧
    ((run 0 (initialState 0) [Event.disconnect 1 5]).sd.count_connected : Int) ≠
      (connects [Event.disconnect 1 5] : Int) - (disconnects [Event.disconnect 1 5] : Int) := by
  decide

/-- C1: for every sequence of events that the IPC host can deliver (at every
point the disconnects so far do not outnumber the connects so far, and there
are fewer than `2 ^ 64` connects) applied to a `ServerData` whose
`count_connected` is 0, at every point of the sequence `count_connected`
equals (number of connects - number of disconnects) as a mathematical
integer, and that integer is not negative. -/
theorem C1_count_connected_eq (ErrorCode_Ok : Nat) (s : ProcState) (evs : List Event)
    (h0 : s.sd.count_connected = 0)
    (hbal : ∀ n, disconnects (evs.take n) ≤ connects (evs.take n))
    (hmax : connects evs < SIZE_MOD) :
    ∀ n, ((run ErrorCode_Ok s (evs.take n)).sd.count_connected : Int) =
        (connects (evs.take n) : Int) - (disconnects (evs.take n) : Int) ∧
      0 ≤ (connects (evs.take n) : Int) - (disconnects (evs.take n) : Int) := by
  intro n
  have h := run_count_connected ErrorCode_Ok (evs.take n) s
    (fun m => by
      have := hbal (min m n)
      rw [List.take_take, h0]
      simpa using this)
    (by have := connects_take_le n evs; omega)
  have hb := hbal n
  rw [h0] at h
  omega

/-- C1 at a concrete sequence: two clients connect, a loop iteration runs,
both disconnect. -/
theorem C1_count_connected_eq_witness :
    (initialState 0).sd.count_connected = 0 ∧
    (∀ n, ((run 0 (initialState 0)
        ([Event.connect 1 0, Event.connect 2 3, Event.poll 4, Event.disconnect 1 7,
          Event.disconnect 2 9].take n)).sd.count_connected : Int) =
      (connects ([Event.connect 1 0, Event.connect 2 3, Event.poll 4, Event.disconnect 1 7,
          Event.disconnect 2 9].take n) : Int) -
      (disconnects ([Event.connect 1 0, Event.connect 2 3, Event.poll 4, Event.disconnect 1 7,
          Event.disconnect 2 9].take n) : Int) ∧
      0 ≤ (connects ([Event.connect 1 0, Event.connect 2 3, Event.poll 4, Event.disconnect 1 7,
          Event.disconnect 2 9].take n) : Int) -
      (disconnects ([Event.connect 1 0, Event.connect 2 3, Event.poll 4, Event.disconnect 1 7,
          Event.disconnect 2 9].take n) : Int)) :=
  ⟨rfl, C1_count_connected_eq 0 (initialState 0)
    [Event.connect 1 0, Event.connect 2 3, Event.poll 4, Event.disconnect 1 7,
      Event.disconnect 2 9] rfl
    (fun n => by
      rcases n with _ | _ | _ | _ | _ | _ | n <;> simp [connects, disconnects])
    (by decide)⟩

/-! ## The grace period (C3) -/

/-- The grace period when no callback runs in the middle of a loop iteration
(as it would be if the loop held `sd.mtx` across lines 203-209): take any run
of callbacks and whole loop iterations from the initial state in which every
disconnect is for a connected client, with fewer than `2 ^ 64` events, after
which the flag is still clear.  If the next whole iteration, at time `t`,
makes the watchdog terminate, then the run splits at a zero crossing at some
time `z`, after which `count_connected` has been 0 and no client connected at
every point up to the iteration, and `t - z` is at least 1000 ms.  And if any
client is connected when the iteration runs, the watchdog keeps running. -/
theorem atomic_poll_grace_period (ErrorCode_Ok : Nat) (t0 : Int)
    (pre : List Event) (t : Int)
    (hpair : pairedFrom [] pre) (hlen : pre.length < SIZE_MOD)
    (hrun : (run ErrorCode_Ok (initialState t0) pre).doShutdown = false) :
    ((loopIteration (run ErrorCode_Ok (initialState t0) pre) t).1
        = WatchdogState.TERMINATING →
      ∃ z a b, pre = a ++ b ∧ zeroCrossing ErrorCode_Ok t0 a z ∧
        (∀ n, (run ErrorCode_Ok (initialState t0) (a ++ b.take n)).sd.count_connected = 0 ∧
          clientsAfter [] (a ++ b.take n) = []) ∧
        1000 * TICKS_PER_MS ≤ t - z) ∧
    (clientsAfter [] pre ≠ [] →
      (loopIteration (run ErrorCode_Ok (initialState t0) pre) t).1
        = WatchdogState.RUNNING) := by
  have hiff := (loopIteration_state (run ErrorCode_Ok (initialState t0) pre) t).trans
    (loopIteration_doShutdown (run ErrorCode_Ok (initialState t0) pre) t)
  have hcount := run_count_eq_clients ErrorCode_Ok pre (initialState t0) [] hpair rfl
    (by simpa using hlen)
  constructor
  · intro hterm
    rcases hiff.mp hterm with h | ⟨hz, hgt⟩
    · rw [hrun] at h; exact absurd h (by decide)
    · obtain ⟨a, b, hab, hzc, hall⟩ := exists_zeroCrossing ErrorCode_Ok t0 pre hpair hlen hz
      refine ⟨_, a, b, hab, hzc, ?_, ?_⟩
      · intro n
        refine ⟨hall n, ?_⟩
        have hsplit : pre = (a ++ b.take n) ++ b.drop n := by
          rw [List.append_assoc, List.take_append_drop]; exact hab
        have hp2 : pairedFrom [] (a ++ b.take n) := by
          have := hpair
          rw [hsplit, pairedFrom_append] at this
          exact this.1
        have hl2 : (a ++ b.take n).length < SIZE_MOD := by
          have : (a ++ b.take n).length ≤ pre.length := by
            rw [hsplit]; simp
          omega
        have hc2 := run_count_eq_clients ErrorCode_Ok (a ++ b.take n) (initialState t0) []
          hp2 rfl (by simpa using hl2)
        rw [hall n] at hc2
        exact List.length_eq_zero.mp hc2.symm
      · have := (duration_cast_ms_gt_iff _).mp hgt
        unfold TICKS_PER_MS at this ⊢
        omega
  · intro hne
    have hnot : ¬ (loopIteration (run ErrorCode_Ok (initialState t0) pre) t).1
        = WatchdogState.TERMINATING := by
      rw [hiff]
      rintro (h | ⟨hz, _⟩)
      · rw [hrun] at h; exact absurd h (by decide)
      · rw [hcount] at hz
        exact hne (List.length_eq_zero.mp hz)
    cases h2 : (loopIteration (run ErrorCode_Ok (initialState t0) pre) t).1 with
    | RUNNING => rfl
    | TERMINATING => exact absurd h2 hnot

/-- The grace period under whole iterations, at a concrete run: two
overlapping clients; the first leaves at 5 ms, the second at 400 ms; the
iteration at 1405 ms terminates. -/
theorem atomic_poll_grace_period_example :
    pairedFrom [] [Event.connect 1 0, Event.connect 2 1000000, Event.disconnect 1 5000000,
      Event.poll 6000000, Event.disconnect 2 400000000, Event.poll 1300000000] ∧
    (run 0 (initialState 0) [Event.connect 1 0, Event.connect 2 1000000,
      Event.disconnect 1 5000000, Event.poll 6000000, Event.disconnect 2 400000000,
      Event.poll 1300000000]).doShutdown = false ∧
    (loopIteration (run 0 (initialState 0) [Event.connect 1 0, Event.connect 2 1000000,
      Event.disconnect 1 5000000, Event.poll 6000000, Event.disconnect 2 400000000,
      Event.poll 1300000000]) 1405000000).1 = WatchdogState.TERMINATING ∧
    ∃ z a b, [Event.connect 1 0, Event.connect 2 1000000, Event.disconnect 1 5000000,
        Event.poll 6000000, Event.disconnect 2 400000000, Event.poll 1300000000] = a ++ b ∧
      zeroCrossing 0 0 a z ∧
      (∀ n, (run 0 (initialState 0) (a ++ b.take n)).sd.count_connected = 0 ∧
        clientsAfter [] (a ++ b.take n) = []) ∧
      1000 * TICKS_PER_MS ≤ 1405000000 - z :=
  ⟨by simp [pairedFrom], by decide, by decide,
    (atomic_poll_grace_period 0 0 [Event.connect 1 0, Event.connect 2 1000000,
      Event.disconnect 1 5000000, Event.poll 6000000, Event.disconnect 2 400000000,
      Event.poll 1300000000] 1405000000 (by simp [pairedFrom]) (by decide) (by decide)).1
      (by decide)⟩

/-- The accesses of one loop iteration, run back to back, have the effect of
`loopIteration`. -/
theorem fineRun_back_to_back (ErrorCode_Ok : Nat) (s : ProcState) (now : Int) :
    (fineRun ErrorCode_Ok { vars := s, pc := LoopPc.atTest }
      [FineEvent.loopTest, FineEvent.loopClock now, FineEvent.loopCompare]).vars =
      (loopIteration s now).2 := by
  by_cases hs : s.doShutdown = true
  · simp [fineRun, fineStep, loopIteration, hs]
  · by_cases hc : s.sd.count_connected = 0
    · by_cases hd : 1000 < duration_cast_ms (now - s.sd.last_disconnect)
      · simp [fineRun, fineStep, loopIteration, loopBody, hs, hc, hd]
      · simp [fineRun, fineStep, loopIteration, loopBody, hs, hc, hd]
    · simp [fineRun, fineStep, loopIteration, loopBody, hs, hc]

/-- C3, the defect: the loop reads `count_connected` (line 203) and
`last_disconnect` (line 206) without taking `sd.mtx`.  Started at time 0
with no shutdown request ever issued, it reads the count as 0; client 1
connects at 999.5 ms, before the grace period has elapsed, and stays
connected; the loop then reads the clock at 1001 ms and sets the flag.  The
watchdog terminates with `count_connected = 1`, client 1 connected, and the
count not 0 since 999.5 ms.  Either way of running the iteration as a whole,
before or after the connect, keeps the watchdog running. -/
theorem C3_unlocked_reads_terminate_with_client :
    raceTrace.filterMap FineEvent.toEvent = [Event.connect 1 999500000] ∧
    pairedFrom [] (raceTrace.filterMap FineEvent.toEvent) ∧
    (∀ e ∈ raceTrace.filterMap FineEvent.toEvent, e.isShutdown = false) ∧
    (fineRun 0 { vars := initialState 0, pc := LoopPc.atTest }
      (raceTrace.take 3)).vars.doShutdown = false ∧
    (fineRun 0 { vars := initialState 0, pc := LoopPc.atTest }
      (raceTrace.take 3)).vars.sd.count_connected = 1 ∧
    (fineRun 0 { vars := initialState 0, pc := LoopPc.atTest } raceTrace).vars.doShutdown
      = true ∧
    (fineRun 0 { vars := initialState 0, pc := LoopPc.atTest }
      raceTrace).vars.sd.count_connected = 1 ∧
    clientsAfter [] (raceTrace.filterMap FineEvent.toEvent) = [1] ∧
    (run 0 (initialState 0) [Event.poll 999400000, Event.connect 1 999500000]).doShutdown
      = false ∧
    (run 0 (initialState 0) [Event.connect 1 999500000, Event.poll 1001000000]).doShutdown
      = false := by
  refine ⟨by decide, ?_, by decide, by decide, by decide, by decide, by decide, by decide,
    by decide, by decide⟩
  have h : raceTrace.filterMap FineEvent.toEvent = [Event.connect 1 999500000] := by decide
  rw [h]
  simp [pairedFrom]

/-! ## The watchdog's transition (C2, C10) -/

/-- C2, as the specification states it, fails: with no client connected, the
flag clear and `now - last_disconnect` equal to 1000.5 ms (more than
1000 ms), the iteration leaves the watchdog RUNNING. -/
theorem C2_counterexample :
    (initialState 0).doShutdown = false ∧
    (initialState 0).sd.count_connected = 0 ∧
    1000500000 - (initialState 0).sd.last_disconnect > 1000 * TICKS_PER_MS ∧
    (loopIteration (initialState 0) 1000500000).1 = WatchdogState.RUNNING := by
  decide

/-- C2, amended: one iteration of the loop of `main` takes the watchdog from
RUNNING to TERMINATING if and only if the shutdown flag is set, or
`count_connected == 0` and `now - last_disconnect`, truncated to whole
milliseconds, exceeds 1000 (that is, `now - last_disconnect` is at least
1001 ms); a set flag terminates whatever `count_connected` is. -/
theorem C2_loopIteration_terminating_iff (s : ProcState) (now : Int) :
    ((loopIteration s now).1 = WatchdogState.TERMINATING ↔
      s.doShutdown = true ∨
        (s.sd.count_connected = 0 ∧
          duration_cast_ms (now - s.sd.last_disconnect) > 1000)) ∧
    ((loopIteration s now).1 = WatchdogState.TERMINATING ↔
      s.doShutdown = true ∨
        (s.sd.count_connected = 0 ∧
          1001 * TICKS_PER_MS ≤ now - s.sd.last_disconnect)) ∧
    (s.doShutdown = true → (loopIteration s now).1 = WatchdogState.TERMINATING) := by
  have h := (loopIteration_state s now).trans (loopIteration_doShutdown s now)
  refine ⟨h, ?_, fun hs => h.mpr (Or.inl hs)⟩
  rw [h, duration_cast_ms_gt_iff]

/-- C10: from the initial state (no client, both timestamps `t0`, flag clear)
and with no callback ever invoked, polls whose elapsed time `now - t0`,
truncated to whole milliseconds, is at most 1000 leave the state as it is, a
poll ends the loop exactly when the truncated elapsed time exceeds 1000, and
a poll at 1000.9 ms does not end it while one at 1001 ms does.  The loop of
`main` (`watchdogLoop`) over polls whose truncated elapsed time is at most
1000 is not left and runs its body once per poll; when a poll whose truncated
elapsed time exceeds 1000 follows, the loop is left at the very next test,
whatever comes after.  Accordingly `main`, started properly, does not return
over the early polls alone and returns 0 after the teardown once the late
poll and the following test have happened. -/
theorem C10_idle_server_terminates (ErrorCode_Ok : Nat) (t0 : Int) :
    (∀ polls : List Int, (∀ p ∈ polls, duration_cast_ms (p - t0) ≤ 1000) →
      run ErrorCode_Ok (initialState t0) (polls.map Event.poll) = initialState t0) ∧
    (∀ now : Int, (loopIteration (initialState t0) now).1 = WatchdogState.TERMINATING ↔
      duration_cast_ms (now - t0) > 1000) ∧
    (loopIteration (initialState t0) (t0 + 1000900000)).1 = WatchdogState.RUNNING ∧
    (loopIteration (initialState t0) (t0 + 1001000000)).1 = WatchdogState.TERMINATING ∧
    (∀ (polls : List Int) (now next : Int),
      (∀ p ∈ polls, duration_cast_ms (p - t0) ≤ 1000) →
      duration_cast_ms (now - t0) > 1000 →
      (watchdogLoop ErrorCode_Ok (initialState t0)
        (polls.map Event.poll ++ [Event.poll now, Event.poll next])).1 =
        some { initialState t0 with doShutdown := true }) ∧
    (∀ polls : List Int, (∀ p ∈ polls, duration_cast_ms (p - t0) ≤ 1000) →
      watchdogLoop ErrorCode_Ok (initialState t0) (polls.map Event.poll) =
        (none, iterationsLog polls.length)) ∧
    (∀ (polls : List Int) (now next : Int) (rest : List Event),
      (∀ p ∈ polls, duration_cast_ms (p - t0) ≤ 1000) →
      duration_cast_ms (now - t0) > 1000 →
      watchdogLoop ErrorCode_Ok (initialState t0)
          (polls.map Event.poll ++ Event.poll now :: Event.poll next :: rest) =
        (some { initialState t0 with doShutdown := true },
          iterationsLog polls.length ++
            [Action.loop_test, Action.sleep_for 10, Action.loop_test])) ∧
    (∀ (env : Env) (polls : List Int) (now next : Int),
      env.database = DbResult.ok → (env.argv.length : Int) = 2 →
      env.initialize_throws = false → env.t0 = t0 →
      (∀ p ∈ polls, duration_cast_ms (p - t0) ≤ 1000) →
      duration_cast_ms (now - t0) > 1000 →
      (env.events = polls.map Event.poll → (main ErrorCode_Ok env).1 = none) ∧
      (env.events = polls.map Event.poll ++ [Event.poll now, Event.poll next] →
        (main ErrorCode_Ok env).1 = some 0 ∧
        (main ErrorCode_Ok env).2 = (bootActions ++ registrationActions) ++
          Action.myServer_initialize (env.argv.getD 1 "") ::
            (iterationsLog polls.length ++
              [Action.loop_test, Action.sleep_for 10, Action.loop_test,
                Action.Source_Finalize, Action.myServer_finalize]))) := by
  have key : ∀ now : Int,
      (loopIteration (initialState t0) now).1 = WatchdogState.TERMINATING ↔
        duration_cast_ms (now - t0) > 1000 := by
    intro now
    rw [(loopIteration_state _ now).trans (loopIteration_doShutdown _ now)]
    simp [initialState]
  refine ⟨?_, key, ?_, ?_, ?_, ?_, ?_, ?_⟩
  · intro polls
    induction polls with
    | nil => intro _; rfl
    | cons p ps ih =>
      intro h
      have hp : ¬ duration_cast_ms (p - t0) > 1000 := not_lt.mpr (h p (List.mem_cons_self _ _))
      have hstep : step ErrorCode_Ok (initialState t0) (Event.poll p) = initialState t0 := by
        have hp2 : ¬ (1000 < duration_cast_ms (p - t0)) := hp
        simp [step, loopIteration, loopBody, initialState, hp2]
      simp only [run, List.map_cons, List.foldl_cons, hstep]
      exact ih (fun q hq => h q (List.mem_cons_of_mem _ hq))
  · have h1 : ¬ (loopIteration (initialState t0) (t0 + 1000900000)).1
        = WatchdogState.TERMINATING := by
      rw [key, duration_cast_ms_gt_iff]
      unfold TICKS_PER_MS
      omega
    cases h2 : (loopIteration (initialState t0) (t0 + 1000900000)).1 with
    | RUNNING => rfl
    | TERMINATING => exact absurd h2 h1
  · rw [key, duration_cast_ms_gt_iff]
    unfold TICKS_PER_MS
    omega
  · intro polls now next
    induction polls with
    | nil =>
      intro _ hnow
      have hnow2 : 1000 < duration_cast_ms (now - t0) := hnow
      simp [watchdogLoop, loopBody, initialState, hnow2]
    | cons p ps ih =>
      intro h hnow
      have hp : ¬ (1000 < duration_cast_ms (p - t0)) :=
        not_lt.mpr (h p (List.mem_cons_self _ _))
      have hbody : loopBody (initialState t0) p = initialState t0 := by
        simp [loopBody, initialState, hp]
      have hflag : (initialState t0).doShutdown = false := rfl
      simp only [List.map_cons, List.cons_append, watchdogLoop, hflag, Bool.false_eq_true,
        if_false, hbody]
      exact ih (fun q hq => h q (List.mem_cons_of_mem _ hq)) hnow
  · intro polls h
    have := watchdogLoop_early_polls ErrorCode_Ok t0 [] polls h
    simpa [watchdogLoop] using this
  · intro polls now next rest h hnow
    rw [watchdogLoop_early_polls ErrorCode_Ok t0 _ polls h,
      watchdogLoop_late_poll ErrorCode_Ok t0 now next rest hnow]
  · intro env polls now next hdb hargc hthrow ht0 h hnow
    rcases main_log_cases ErrorCode_Ok env with ⟨_, _, hne⟩ | ⟨_, _, _, hne⟩ |
      ⟨_, _, ⟨ht, _, _⟩ | ⟨_, hret, hlog⟩⟩
    · exact absurd hdb hne
    · exact absurd hargc hne
    · rw [hthrow] at ht; exact absurd ht (by decide)
    · rw [ht0] at hret hlog
      constructor
      · intro hev
        have hw := watchdogLoop_early_polls ErrorCode_Ok t0 [] polls h
        simp only [List.append_nil] at hw
        rw [hret, hev, hw]
        simp [watchdogLoop]
      · intro hev
        have hw : watchdogLoop ErrorCode_Ok (initialState t0)
            (polls.map Event.poll ++ [Event.poll now, Event.poll next]) =
            (some { initialState t0 with doShutdown := true },
              iterationsLog polls.length ++
                [Action.loop_test, Action.sleep_for 10, Action.loop_test]) := by
          rw [watchdogLoop_early_polls ErrorCode_Ok t0 _ polls h,
            watchdogLoop_late_poll ErrorCode_Ok t0 now next [] hnow]
        rw [hret, hlog, hev, hw]
        simp

/-! ## The shutdown call and the writers of the flag (C4, C8) -/

/-- C4: for every call id and argument list, `System::Shutdown` sets the flag
it is given to true and, on the empty result vector the call starts with,
yields exactly one value, the status `ErrorCode::Ok`; in general it appends
that one value to the result vector.  It is a total function. -/
theorem C4_Shutdown_sets_flag_returns_Ok (ErrorCode_Ok : Nat) (data : Bool) (id : Int)
    (args : List value) :
    (System.Shutdown ErrorCode_Ok data id args []).1 = true ∧
    (System.Shutdown ErrorCode_Ok data id args []).2 =
      [value.UInt64 (ErrorCode_Ok % 2 ^ 64)] ∧
    (System.Shutdown ErrorCode_Ok data id args []).2.length = 1 ∧
    (∀ rval : List value, (System.Shutdown ErrorCode_Ok data id args rval).2 =
      rval ++ [value.UInt64 (ErrorCode_Ok % 2 ^ 64)]) := by
  refine ⟨rfl, rfl, rfl, fun _ => rfl⟩

/-- C5, as the specification states it, fails: started with no argument after
the program path while the crash database cannot be opened, `main` returns 0,
not -1. -/
theorem C5_counterexample :
    (envNoArgsNoDatabase.argv.length : Int) ≠ 2 ∧
    (main 0 envNoArgsNoDatabase).1 = some 0 ∧
    (main 0 envNoArgsNoDatabase).1 ≠ some (-1) := by
  decide

/-- C5, amended: for every argument count other than 2, `main` never calls
`myServer.initialize`, and, whenever the crash database has been opened, it
returns the usage-error code -1. -/
theorem C5_wrong_argc (ErrorCode_Ok : Nat) (env : Env)
    (hargc : (env.argv.length : Int) ≠ 2) :
    (∀ a ∈ (main ErrorCode_Ok env).2, a.isServerStart = false) ∧
    (env.database = DbResult.ok → (main ErrorCode_Ok env).1 = some (-1)) := by
  rcases main_log_cases ErrorCode_Ok env with ⟨_, hlog, hdb⟩ | ⟨hret, hlog, _, _⟩ | ⟨_, h2, _⟩
  · refine ⟨?_, fun h => absurd h hdb⟩
    rw [hlog]
    decide
  · refine ⟨?_, fun _ => hret⟩
    rw [hlog]
    decide
  · exact absurd h2 hargc

/-- C5, amended, at a start with no endpoint argument. -/
theorem C5_wrong_argc_witness :
    (envNoArgs.argv.length : Int) ≠ 2 ∧
    (∀ a ∈ (main 0 envNoArgs).2, a.isServerStart = false) ∧
    (envNoArgs.database = DbResult.ok → (main 0 envNoArgs).1 = some (-1)) :=
  ⟨by decide, C5_wrong_argc 0 envNoArgs (by decide)⟩

/-- C6, the defect: with a valid endpoint argument and a crash database that
cannot be opened, `main` returns `false`, that is exit code 0, having
performed nothing but the attempt to open the database: no loop iteration,
no `osn::Source::Finalize`, no `myServer.finalize`. -/
theorem C6_database_failure_returns_zero :
    main 0 envNoDatabase = (some 0, [Action.CrashReportDatabase_Initialize]) ∧
    Action.loop_test ∉ (main 0 envNoDatabase).2 ∧
    Action.Source_Finalize ∉ (main 0 envNoDatabase).2 ∧
    Action.myServer_finalize ∉ (main 0 envNoDatabase).2 := by
  decide

/-- C7: whenever `main` calls `myServer.initialize` and the call throws,
`main` returns -2, and its log holds no evaluation of the loop condition. -/
theorem C7_server_start_failure (ErrorCode_Ok : Nat) (env : Env)
    (hcall : ∃ ep, Action.myServer_initialize ep ∈ (main ErrorCode_Ok env).2)
    (hthrow : env.initialize_throws = true) :
    (main ErrorCode_Ok env).1 = some (-2) ∧
    Action.loop_test ∉ (main ErrorCode_Ok env).2 := by
  obtain ⟨ep, hep⟩ := hcall
  rcases main_log_cases ErrorCode_Ok env with ⟨_, hlog, _⟩ | ⟨_, hlog, _, _⟩ |
    ⟨_, _, ⟨_, hret, hlog⟩ | ⟨hno, _, _⟩⟩
  · rw [hlog] at hep
    simp at hep
  · rw [hlog] at hep
    simp [bootActions] at hep
  · refine ⟨hret, ?_⟩
    rw [hlog]
    simp [bootActions, registrationActions]
  · rw [hthrow] at hno
    exact absurd hno (by decide)

/-- C7 at a start on an endpoint on which the server cannot be started. -/
theorem C7_server_start_failure_witness :
    (∃ ep, Action.myServer_initialize ep ∈ (main 0 envBadEndpoint).2) ∧
    envBadEndpoint.initialize_throws = true ∧
    (main 0 envBadEndpoint).1 = some (-2) ∧
    Action.loop_test ∉ (main 0 envBadEndpoint).2 :=
  ⟨⟨"slobs-pipe", by decide⟩, rfl,
    C7_server_start_failure 0 envBadEndpoint ⟨"slobs-pipe", by decide⟩ rfl⟩

/-- C9: in every run of `main` whose log holds a call of
`myServer.initialize`, what precedes the call holds the registration of the
`System` collection followed by the thirteen `Register` calls, in source
order, and the installation of both handlers; what follows it holds no
registration and no installation of a handler. -/
theorem C9_registration_before_server_start (ErrorCode_Ok : Nat) (env : Env)
    (pre post : List Action) (ep : String)
    (h : (main ErrorCode_Ok env).2 = pre ++ Action.myServer_initialize ep :: post) :
    pre.filter Action.isRegistration =
      [ Action.register_collection "System" ["Shutdown"],
        Action.Register "osn::Global", Action.Register "osn::Source",
        Action.Register "osn::Input", Action.Register "osn::Filter",
        Action.Register "osn::Transition", Action.Register "osn::Scene",
        Action.Register "osn::SceneItem", Action.Register "osn::Fader",
        Action.Register "osn::VolMeter", Action.Register "OBS_API",
        Action.Register "OBS_content", Action.Register "OBS_service",
        Action.Register "OBS_settings" ] ∧
    Action.set_connect_handler ∈ pre ∧ Action.set_disconnect_handler ∈ pre ∧
    (∀ a ∈ post, a.isRegistration = false ∧ a ≠ Action.set_connect_handler ∧
      a ≠ Action.set_disconnect_handler) := by
  have hmem : Action.myServer_initialize ep ∈ (main ErrorCode_Ok env).2 := by
    rw [h]; simp
  have hL : ∀ a ∈ bootActions ++ registrationActions, a.isServerStart = false := by decide
  have hpre : pre = bootActions ++ registrationActions →
      pre.filter Action.isRegistration =
      [ Action.register_collection "System" ["Shutdown"],
        Action.Register "osn::Global", Action.Register "osn::Source",
        Action.Register "osn::Input", Action.Register "osn::Filter",
        Action.Register "osn::Transition", Action.Register "osn::Scene",
        Action.Register "osn::SceneItem", Action.Register "osn::Fader",
        Action.Register "osn::VolMeter", Action.Register "OBS_API",
        Action.Register "OBS_content", Action.Register "OBS_service",
        Action.Register "OBS_settings" ] ∧
      Action.set_connect_handler ∈ pre ∧ Action.set_disconnect_handler ∈ pre := by
    intro hp
    rw [hp]
    decide
  rcases main_log_cases ErrorCode_Ok env with ⟨_, hlog, _⟩ | ⟨_, hlog, _, _⟩ |
    ⟨_, _, ⟨_, _, hlog⟩ | ⟨_, _, hlog⟩⟩
  · rw [hlog] at hmem
    simp at hmem
  · rw [hlog] at hmem
    simp [bootActions] at hmem
  · rw [hlog] at h
    obtain ⟨h1, _, h3⟩ := split_at_server_start _
      [Action.cerr "Failed to initialize server"] pre post
      (Action.myServer_initialize (env.argv.getD 1 "")) (Action.myServer_initialize ep)
      hL (by decide) rfl rfl h
    obtain ⟨ha, hb, hc⟩ := hpre h1
    refine ⟨ha, hb, hc, ?_⟩
    rw [h3]
    decide
  · rw [hlog] at h
    have hT : ∀ a ∈ (watchdogLoop ErrorCode_Ok (initialState env.t0) env.events).2 ++
        (if (watchdogLoop ErrorCode_Ok (initialState env.t0) env.events).1.isSome
          then [Action.Source_Finalize, Action.myServer_finalize] else []),
        a.isServerStart = false ∧ a.isRegistration = false ∧
          a ≠ Action.set_connect_handler ∧ a ≠ Action.set_disconnect_handler := by
      intro a ha
      rw [List.mem_append] at ha
      rcases ha with ha | ha
      · rcases watchdogLoop_log ErrorCode_Ok _ _ a ha with rfl | rfl <;> decide
      · split_ifs at ha
        · simp only [List.mem_cons, List.mem_singleton, List.not_mem_nil, or_false] at ha
          rcases ha with rfl | rfl <;> decide
        · simp at ha
    obtain ⟨h1, _, h3⟩ := split_at_server_start _ _ pre post
      (Action.myServer_initialize (env.argv.getD 1 "")) (Action.myServer_initialize ep)
      hL (fun a ha => (hT a ha).1) rfl rfl h
    obtain ⟨ha, hb, hc⟩ := hpre h1
    refine ⟨ha, hb, hc, ?_⟩
    rw [h3]
    exact fun a ha => (hT a ha).2

/-- C9 at a full session: registration, server start, a client that comes and
goes, the loop ending after the grace period, teardown. -/
theorem C9_registration_before_server_start_witness :
    (main 0 envSession).2 = (bootActions ++ registrationActions) ++
      Action.myServer_initialize "slobs-pipe" ::
        [Action.loop_test, Action.sleep_for 10, Action.loop_test, Action.sleep_for 10,
          Action.loop_test, Action.Source_Finalize, Action.myServer_finalize] ∧
    (main 0 envSession).1 = some 0 ∧
    (bootActions ++ registrationActions).filter Action.isRegistration =
      [ Action.register_collection "System" ["Shutdown"],
        Action.Register "osn::Global", Action.Register "osn::Source",
        Action.Register "osn::Input", Action.Register "osn::Filter",
        Action.Register "osn::Transition", Action.Register "osn::Scene",
        Action.Register "osn::SceneItem", Action.Register "osn::Fader",
        Action.Register "osn::VolMeter", Action.Register "OBS_API",
        Action.Register "OBS_content", Action.Register "OBS_service",
        Action.Register "OBS_settings" ] ∧
    Action.set_connect_handler ∈ bootActions ++ registrationActions ∧
    Action.set_disconnect_handler ∈ bootActions ++ registrationActions ∧
    (∀ a ∈ [Action.loop_test, Action.sleep_for 10, Action.loop_test, Action.sleep_for 10,
          Action.loop_test, Action.Source_Finalize, Action.myServer_finalize],
      a.isRegistration = false ∧ a ≠ Action.set_connect_handler ∧
        a ≠ Action.set_disconnect_handler) :=
  ⟨by decide, by decide,
    C9_registration_before_server_start 0 envSession (bootActions ++ registrationActions)
      [Action.loop_test, Action.sleep_for 10, Action.loop_test, Action.sleep_for 10,
        Action.loop_test, Action.Source_Finalize, Action.myServer_finalize]
      "slobs-pipe" (by decide)⟩

end ObsServer
